import Mathlib

/-!
# halfstack_web: the three Markdown section handlers of `main.go`

A shallow embedding of `renderBlog`, `renderShow` and `renderHome` together with
the parts of the Go standard library they call (`strings.TrimPrefix`,
`strings.ReplaceAll`, `fmt.Sprintf` with one `%s`, `http.Redirect`, `http.Error`
and the `http.ResponseWriter` protocol).

Conventions.

* A Go `string` / `[]byte` is a Lean `String`.  Every operation the handlers
  perform on a request path (comparison with an ASCII literal, trimming an ASCII
  prefix, replacing the one-byte string `/`, concatenation) acts on UTF-8 text
  code point by code point exactly as it acts byte by byte.
* The world outside the handler is a record `Env`: the host path separator, the
  file system as seen by `os.ReadFile`, the Markdown converter
  `blackfriday.Run(_, WithNoExtensions())` and the execution of the process-wide
  template `tmpl`.
* A handler returns the final state of its `ResponseWriter` and the list of the
  effects it performed, in order.  Statements about the response are made for
  the writer `ResponseWriter.fresh r`, which is what the server passes, together
  with the request `r`, to a handler registered with `http.HandleFunc`; the
  connection to the client is taken to stay up.
-/

namespace Halfstack

/-! ## `strings` -/

namespace strings

/-- `strings.HasPrefix(s, pre)`. -/
def HasPrefix (s pre : String) : Bool :=
  pre.data.isPrefixOf s.data

/-- `strings.TrimPrefix(s, pre)`: `s` without the leading `pre`, or `s` itself
when `s` does not start with `pre`. -/
def TrimPrefix (s pre : String) : String :=
  if HasPrefix s pre then ⟨s.data.drop pre.data.length⟩ else s

/-- The scan of `strings.Replace` for a non-empty `old`, left to right over the
remaining text.  `skip` counts the characters of a match that are still to be
dropped; a new match is looked for only when `skip = 0`, so matches never
overlap. -/
def replaceScan (old new : List Char) : Nat → List Char → List Char
  | _, [] => []
  | skip + 1, _ :: cs => replaceScan old new skip cs
  | 0, c :: cs =>
    if old.isPrefixOf (c :: cs) then new ++ replaceScan old new (old.length - 1) cs
    else c :: replaceScan old new 0 cs

/-- `strings.ReplaceAll(s, old, new)`.  For an empty `old` Go inserts `new`
before every code point and at the end of `s`. -/
def ReplaceAll (s old new : String) : String :=
  if old.data = [] then
    ⟨(s.data.flatMap fun c => new.data ++ [c]) ++ new.data⟩
  else
    ⟨replaceScan old.data new.data 0 s.data⟩

end strings

/-! ## `net/http` -/

/-- The header map `http.Header`, restricted to one value per key (the handlers
only ever `Set` and `Del`). -/
abbrev Header := List (String × String)

namespace Header

/-- `h.Del(key)`. -/
def Del (h : Header) (key : String) : Header :=
  h.filter fun kv => kv.1 != key

/-- `h.Set(key, value)`. -/
def Set (h : Header) (key value : String) : Header :=
  Del h key ++ [(key, value)]

/-- `h.Get(key)`, `none` when the key is absent. -/
def Get (h : Header) (key : String) : Option String :=
  h.lookup key

end Header

/-- The field `r.URL`. -/
structure URL where
  Path : String
  deriving DecidableEq, Repr

/-- The part of `*http.Request` that the handlers and `http.Redirect` look at. -/
structure Request where
  Method : String
  URL : URL
  deriving DecidableEq, Repr

/-- The state of an `http.ResponseWriter` of the standard server.
`req` is the request the writer answers and `header` the map returned by
`w.Header()`.  Once the status line has been written (`wroteHeader`), `status`
and `sent` hold what went to the client; later changes of `header` no longer
reach it.  `sent` is the handler's header map at that moment; what the server
adds on its own (`Date`, `Content-Length`, a `Content-Type` sniffed from the
first bytes when the handler set none) is not modelled.  `body` is the body
that went to the client. -/
structure ResponseWriter where
  req : Request
  header : Header
  wroteHeader : Bool
  status : Nat
  sent : Header
  body : String
  deriving DecidableEq, Repr

namespace ResponseWriter

/-- The writer a handler receives from the server for the request `req`:
nothing set, nothing sent. -/
def fresh (req : Request) : ResponseWriter :=
  { req := req, header := [], wroteHeader := false, status := 0, sent := [], body := "" }

/-- The server's `bodyAllowedForStatus(status)`: a response with status 1xx, 204
or 304 has no body. -/
def bodyAllowedForStatus (status : Nat) : Bool :=
  if 100 ≤ status ∧ status ≤ 199 then false
  else if status = 204 then false
  else if status = 304 then false
  else true

/-- `w.WriteHeader(code)`.  A second call is ignored by the server (it only logs
"superfluous response.WriteHeader call"). -/
def WriteHeader (w : ResponseWriter) (code : Nat) : ResponseWriter :=
  if w.wroteHeader then w
  else { w with wroteHeader := true, status := code, sent := w.header }

/-- `w.Write(data)`: the first write sends the status line with `200` when no
`WriteHeader` came before.  An empty write adds nothing, a write to a response
whose status allows no body is refused, and the server drops what a handler
writes in answer to a `HEAD` request. -/
def Write (w : ResponseWriter) (data : String) : ResponseWriter :=
  let w1 := if w.wroteHeader then w else WriteHeader w 200
  if data = "" then w1
  else if !bodyAllowedForStatus w1.status then w1
  else if w1.req.Method = "HEAD" then w1
  else { w1 with body := w1.body ++ data }

/-- What the server does when the handler returns: an unwritten status line is
sent as `200`. -/
def finish (w : ResponseWriter) : ResponseWriter :=
  if w.wroteHeader then w else WriteHeader w 200

end ResponseWriter

/-- `fmt.Fprintln(w, s)` on a response writer. -/
def Fprintln (w : ResponseWriter) (s : String) : ResponseWriter :=
  w.Write (s ++ "\n")

namespace http

def StatusMovedPermanently : Nat := 301
def StatusNotFound : Nat := 404
def StatusInternalServerError : Nat := 500

/-- `http.StatusText(code)` for the codes the handlers use. -/
def StatusText (code : Nat) : String :=
  if code = 200 then "OK"
  else if code = 301 then "Moved Permanently"
  else if code = 404 then "Not Found"
  else if code = 500 then "Internal Server Error"
  else ""

/-- `http.Error(w, error, code)`. -/
def Error (w : ResponseWriter) (error : String) (code : Nat) : ResponseWriter :=
  let h := w.header
  let h := h.Del "Content-Length"
  let h := h.Set "Content-Type" "text/plain; charset=utf-8"
  let h := h.Set "X-Content-Type-Options" "nosniff"
  let w := { w with header := h }
  let w := w.WriteHeader code
  Fprintln w error

/-- `http.Redirect(w, r, url, code)`.  The library first rewrites a relative or
unclean `url` against the request path and escapes it for the header and for the
HTML body; the handlers pass only the literals `/blog/` and `/episodes/`, which
are absolute, clean, ASCII and free of HTML metacharacters, so that rewriting and
both escapes leave them as they are and are not modelled. -/
def Redirect (w : ResponseWriter) (r : Request) (url : String) (code : Nat) :
    ResponseWriter :=
  let h := w.header
  let hadCT := (h.Get "Content-Type").isSome
  let h := h.Set "Location" url
  let h :=
    if !hadCT && (r.Method = "GET" || r.Method = "HEAD") then
      h.Set "Content-Type" "text/html; charset=utf-8"
    else h
  let w := { w with header := h }
  let w := w.WriteHeader code
  if !hadCT && r.Method = "GET" then
    let body := "<a href=\"" ++ url ++ "\">" ++ StatusText code ++ "</a>.\n"
    Fprintln w body
  else w

end http

/-! ## The environment of a handler -/

/-- Why `os.ReadFile` failed.  The handlers only test `err != nil`. -/
inductive ReadError where
  | notExist
  | permission
  | isDirectory
  | other (msg : String)
  deriving DecidableEq, Repr

/-- The type `template.HTML`: a string the template engine inserts as it is. -/
structure HTML where
  val : String
  deriving DecidableEq, Repr

/-- The anonymous `struct{ Content template.HTML }` handed to the template. -/
structure PageData where
  Content : HTML
  deriving DecidableEq, Repr

/-- One run of `tmpl.Execute(w, data)` as the writer sees it: the chunks the
engine passes to `w.Write`, in order, and the error it returns (if any).  The
engine writes while it evaluates, so chunks may precede an error. -/
structure ExecResult where
  writes : List String
  err : Option String
  deriving DecidableEq, Repr

/-- Everything outside the handler. -/
structure Env where
  /-- `os.PathSeparator`. -/
  PathSeparator : Char
  /-- `os.ReadFile`. -/
  ReadFile : String → Except ReadError String
  /-- `blackfriday.Run(content, blackfriday.WithNoExtensions())`. -/
  Run : String → String
  /-- `tmpl.Execute(_, data)` for the template parsed at start-up. -/
  Execute : PageData → ExecResult

/-- An observable step of a handler. -/
inductive Effect where
  /-- `fmt.Println("Loading file:", path)`. -/
  | Println (path : String)
  /-- `os.ReadFile(path)`. -/
  | ReadFile (path : String)
  /-- `blackfriday.Run(content, ...)`. -/
  | Run (content : String)
  /-- `tmpl.Execute(w, data)`. -/
  | Execute (data : PageData)
  deriving DecidableEq, Repr

/-! ## The handlers -/

/-- `renderBlog` of `main.go`. -/
def renderBlog (env : Env) (w : ResponseWriter) (r : Request) :
    ResponseWriter × List Effect :=
  if r.URL.Path = "/blog" then
    (http.Redirect w r "/blog/" http.StatusMovedPermanently, [])
  else
    let filename := strings.TrimPrefix r.URL.Path "/blog/"
    let filename := if filename = "" then "index.md" else filename
    let filepath :=
      "blog/" ++ strings.ReplaceAll filename "/" (String.singleton env.PathSeparator) ++ ".md"
    match env.ReadFile filepath with
    | .error _ =>
      (http.Error w "File not found" http.StatusNotFound,
        [.Println filepath, .ReadFile filepath])
    | .ok content =>
      let htmlContent := env.Run content
      let data : PageData := { Content := ⟨htmlContent⟩ }
      let res := env.Execute data
      let w := res.writes.foldl ResponseWriter.Write w
      let effects := [.Println filepath, .ReadFile filepath, .Run content, .Execute data]
      match res.err with
      | some _ =>
        (http.Error w "Internal Server Error" http.StatusInternalServerError, effects)
      | none => (w, effects)

/-- `renderShow` of `main.go`. -/
def renderShow (env : Env) (w : ResponseWriter) (r : Request) :
    ResponseWriter × List Effect :=
  if r.URL.Path = "/episodes" then
    (http.Redirect w r "/episodes/" http.StatusMovedPermanently, [])
  else
    let filename := strings.TrimPrefix r.URL.Path "/episodes/"
    let filename := if filename = "" then "index.md" else filename
    let filepath :=
      "episodes/" ++ strings.ReplaceAll filename "/" (String.singleton env.PathSeparator)
        ++ ".md"
    match env.ReadFile filepath with
    | .error _ =>
      (http.Error w "File not found" http.StatusNotFound,
        [.Println filepath, .ReadFile filepath])
    | .ok content =>
      let htmlContent := env.Run content
      let data : PageData := { Content := ⟨htmlContent⟩ }
      let res := env.Execute data
      let w := res.writes.foldl ResponseWriter.Write w
      let effects := [.Println filepath, .ReadFile filepath, .Run content, .Execute data]
      match res.err with
      | some _ =>
        (http.Error w "Internal Server Error" http.StatusInternalServerError, effects)
      | none => (w, effects)

/-- `renderHome` of `main.go`. -/
def renderHome (env : Env) (w : ResponseWriter) (r : Request) :
    ResponseWriter × List Effect :=
  let filename := strings.TrimPrefix r.URL.Path "/"
  let filename := if filename = "" then "index" else filename
  let filepath :=
    "pages/" ++ strings.ReplaceAll filename "/" (String.singleton env.PathSeparator) ++ ".md"
  match env.ReadFile filepath with
  | .error _ =>
    (http.Error w "File not found" http.StatusNotFound,
      [.Println filepath, .ReadFile filepath])
  | .ok content =>
    let htmlContent := env.Run content
    let data : PageData := { Content := ⟨htmlContent⟩ }
    let res := env.Execute data
    let w := res.writes.foldl ResponseWriter.Write w
    let effects := [.Println filepath, .ReadFile filepath, .Run content, .Execute data]
    match res.err with
    | some _ =>
      (http.Error w "Internal Server Error" http.StatusInternalServerError, effects)
    | none => (w, effects)

/-- The route table of `main`: which handler serves which section. -/
inductive Section where
  | Blog
  | Episode
  | Page
  deriving DecidableEq, Repr

namespace Section

/-- The handler `main` registers for the section (`http.HandleFunc`). -/
def handler : Section → Env → ResponseWriter → Request → ResponseWriter × List Effect
  | Blog => renderBlog
  | Episode => renderShow
  | Page => renderHome

/-- The directory the section's handler reads from. -/
def root : Section → String
  | Blog => "blog"
  | Episode => "episodes"
  | Page => "pages"

/-- The URL path in front of a document name: `/blog/N`, `/episodes/N`, `/N`. -/
def route : Section → String
  | Blog => "/blog/"
  | Episode => "/episodes/"
  | Page => "/"

/-- The request path on which the section's handler redirects, if it has one. -/
def bare : Section → Option String
  | Blog => some "/blog"
  | Episode => some "/episodes"
  | Page => none

end Section

/-! ## Observations used in the statements -/

/-- What the client receives. -/
structure Response where
  status : Nat
  header : Header
  body : String
  deriving DecidableEq, Repr

/-- The response on the wire once the handler has returned. -/
def ResponseWriter.response (w : ResponseWriter) : Response :=
  { status := w.finish.status, header := w.finish.sent, body := w.finish.body }

/-- The paths given to `os.ReadFile`, in order. -/
def filesRead : List Effect → List String
  | [] => []
  | .ReadFile p :: es => p :: filesRead es
  | _ :: es => filesRead es

/-- The text `N` with every `/` replaced by the separator `sep` and every other
character kept. -/
def hostName (sep : Char) (N : String) : String :=
  ⟨N.data.map fun c => if c = '/' then sep else c⟩

/-- `strings.HasSuffix(s, suf)`. -/
def strings.HasSuffix (s suf : String) : Bool :=
  suf.data.isSuffixOf s.data

/-- The 404 response of `http.Error(w, "File not found", 404)` on a fresh writer. -/
def notFoundResponse : Response :=
  { status := 404
    header := [("Content-Type", "text/plain; charset=utf-8"),
      ("X-Content-Type-Options", "nosniff")]
    body := "File not found\n" }

/-- The 500 response of `http.Error(w, "Internal Server Error", 500)` on a fresh
writer. -/
def serverErrorResponse : Response :=
  { status := 500
    header := [("Content-Type", "text/plain; charset=utf-8"),
      ("X-Content-Type-Options", "nosniff")]
    body := "Internal Server Error\n" }

/-! ### Factoring the handlers

The three handlers share their second half word for word.  `loadAndRender` is
that half, and `blogFile`, `showFile`, `homeFile` are the three path
computations; the lemmas `renderBlog_eq`, `renderShow_eq`, `renderHome_eq`
prove that each handler is its own path computation followed by the shared
half. -/

/-- Lines 28 to 33 of `main.go`. -/
def blogFile (env : Env) (path : String) : String :=
  let filename := strings.TrimPrefix path "/blog/"
  let filename := if filename = "" then "index.md" else filename
  "blog/" ++ strings.ReplaceAll filename "/" (String.singleton env.PathSeparator) ++ ".md"

/-- Lines 57 to 62 of `main.go`. -/
def showFile (env : Env) (path : String) : String :=
  let filename := strings.TrimPrefix path "/episodes/"
  let filename := if filename = "" then "index.md" else filename
  "episodes/" ++ strings.ReplaceAll filename "/" (String.singleton env.PathSeparator) ++ ".md"

/-- Lines 79 to 84 of `main.go`. -/
def homeFile (env : Env) (path : String) : String :=
  let filename := strings.TrimPrefix path "/"
  let filename := if filename = "" then "index" else filename
  "pages/" ++ strings.ReplaceAll filename "/" (String.singleton env.PathSeparator) ++ ".md"

/-- The part of a handler from the log line to its end. -/
def loadAndRender (env : Env) (w : ResponseWriter) (filepath : String) :
    ResponseWriter × List Effect :=
  match env.ReadFile filepath with
  | .error _ =>
    (http.Error w "File not found" http.StatusNotFound,
      [.Println filepath, .ReadFile filepath])
  | .ok content =>
    let htmlContent := env.Run content
    let data : PageData := { Content := ⟨htmlContent⟩ }
    let res := env.Execute data
    let w := res.writes.foldl ResponseWriter.Write w
    let effects := [.Println filepath, .ReadFile filepath, .Run content, .Execute data]
    match res.err with
    | some _ =>
      (http.Error w "Internal Server Error" http.StatusInternalServerError, effects)
    | none => (w, effects)

/-- The file a section's handler resolves a request path to. -/
def Section.file : Section → Env → String → String
  | .Blog => blogFile
  | .Episode => showFile
  | .Page => homeFile

/-! ### Lexical path normalisation and sample environments -/

/-- The segments of a slash-separated path. -/
def splitSlash : List Char → List (List Char)
  | [] => [[]]
  | c :: cs =>
    if c = '/' then [] :: splitSlash cs
    else
      match splitSlash cs with
      | seg :: segs => (c :: seg) :: segs
      | [] => [[c]]

/-- One pass over the segments of a relative path, `acc` holding the segments
kept so far (last one first): empty segments and `.` are dropped, `..` removes
the segment before it, or stays when there is none to remove. -/
def cleanSegments : List (List Char) → List (List Char) → List (List Char)
  | acc, [] => acc.reverse
  | acc, seg :: rest =>
    if seg = [] ∨ seg = ['.'] then cleanSegments acc rest
    else if seg = ['.', '.'] then
      match acc with
      | top :: acc1 =>
        if top = ['.', '.'] then cleanSegments (seg :: acc) rest
        else cleanSegments acc1 rest
      | [] => cleanSegments [seg] rest
    else cleanSegments (seg :: acc) rest

/-- The lexical normalisation of a relative path (what `path.Clean` returns for
it): the shortest path naming the same file on a file system without links. -/
def Clean (p : String) : String :=
  match cleanSegments [] (splitSlash p.data) with
  | [] => "."
  | segs => ⟨['/'].intercalate segs⟩

/-- A Unix host with one document per section, a directory named
`pages/drafts.md`, an unreadable file `pages/private.md`, a converter that wraps its input
in a paragraph and a template that puts the content between two tags. -/
def siteEnv : Env where
  PathSeparator := '/'
  ReadFile p :=
    if p = "blog/hello.md" ∨ p = "episodes/hello.md" ∨ p = "pages/about.md" then .ok "Hi"
    else if p = "pages/drafts.md" then .error .isDirectory
    else if p = "pages/private.md" then .error .permission
    else .error .notExist
  Run c := "<p>" ++ c ++ "</p>"
  Execute d := { writes := ["<html>", d.Content.val, "</html>"], err := none }

/-- The same host with a template that parses but names a field the page data
does not have, as in `<html>{{.Title}}</html>`: the engine writes the text in
front of the action and then fails. -/
def brokenTemplateEnv : Env where
  PathSeparator := '/'
  ReadFile := siteEnv.ReadFile
  Run := siteEnv.Run
  Execute _ := { writes := ["<html>"], err := some "can't evaluate field Title" }

/-- A Unix host whose three sections each hold an `index.md` and nothing else. -/
def indexEnv : Env where
  PathSeparator := '/'
  ReadFile p :=
    if p = "blog/index.md" ∨ p = "episodes/index.md" ∨ p = "pages/index.md" then .ok "Hi"
    else .error .notExist
  Run c := "<p>" ++ c ++ "</p>"
  Execute d := { writes := ["<html>", d.Content.val, "</html>"], err := none }

/-- A Unix host without any file. -/
def emptyEnv : Env where
  PathSeparator := '/'
  ReadFile _ := .error .notExist
  Run c := "<p>" ++ c ++ "</p>"
  Execute d := { writes := ["<html>", d.Content.val, "</html>"], err := none }

/-- The file name, below the section root, that `renderBlog` and `renderShow`
compute from the text `N` after their prefix (lines 29 to 33 and 58 to 62). -/
def relativeFile (env : Env) (N : String) : String :=
  strings.ReplaceAll (if N = "" then "index.md" else N) "/"
    (String.singleton env.PathSeparator) ++ ".md"

/-- A `GET` request for `path`. -/
def GET (path : String) : Request :=
  { Method := "GET", URL := { Path := path } }

/-- A `HEAD` request for `path`. -/
def HEAD (path : String) : Request :=
  { Method := "HEAD", URL := { Path := path } }

/-- The writer `w` answering the request `r` instead of its own. -/
def ResponseWriter.setReq (w : ResponseWriter) (r : Request) : ResponseWriter :=
  { w with req := r }

/-! ## Lemmas on the library functions -/

theorem TrimPrefix_append (p n : String) : strings.TrimPrefix (p ++ n) p = n := by
  have h : p.data.isPrefixOf (p.data ++ n.data) = true := by
    rw [List.isPrefixOf_iff_prefix]
    exact List.prefix_append _ _
  simp [strings.TrimPrefix, strings.HasPrefix, h]

theorem replaceScan_single (c : Char) (new l : List Char) :
    strings.replaceScan [c] new 0 l = l.flatMap fun x => if x = c then new else [x] := by
  induction l with
  | nil => simp [strings.replaceScan]
  | cons x xs ih =>
    by_cases hx : x = c
    · subst hx
      simp [strings.replaceScan, ih]
    · have hx2 : ¬ c = x := fun e => hx e.symm
      simp [strings.replaceScan, ih, hx, hx2]

theorem ReplaceAll_slash (s : String) (sep : Char) :
    strings.ReplaceAll s "/" (String.singleton sep) = hostName sep s := by
  have h : (s.data.flatMap fun x => if x = '/' then [sep] else [x]) =
      s.data.map fun c => if c = '/' then sep else c := by
    induction s.data with
    | nil => rfl
    | cons x xs ih =>
      by_cases hx : x = '/' <;> simp [List.flatMap_cons, hx, ih]
  have hd : ("/" : String).data = ['/'] := rfl
  have hs : (String.singleton sep).data = [sep] := rfl
  simp [strings.ReplaceAll, hostName, hd, hs, replaceScan_single, h]

theorem hostName_slash (N : String) : hostName '/' N = N := by
  have h : (N.data.map fun c => if c = '/' then '/' else c) = N.data := by
    induction N.data with
    | nil => rfl
    | cons x xs ih => by_cases hx : x = '/' <;> simp [hx, ih]
  simp [hostName, h]

theorem renderBlog_eq (env : Env) (w : ResponseWriter) (r : Request) :
    renderBlog env w r =
      if r.URL.Path = "/blog" then
        (http.Redirect w r "/blog/" http.StatusMovedPermanently, [])
      else loadAndRender env w (blogFile env r.URL.Path) := rfl

theorem renderShow_eq (env : Env) (w : ResponseWriter) (r : Request) :
    renderShow env w r =
      if r.URL.Path = "/episodes" then
        (http.Redirect w r "/episodes/" http.StatusMovedPermanently, [])
      else loadAndRender env w (showFile env r.URL.Path) := rfl

theorem renderHome_eq (env : Env) (w : ResponseWriter) (r : Request) :
    renderHome env w r = loadAndRender env w (homeFile env r.URL.Path) := rfl

/-- A handler that is not on its bare prefix is the shared half on its file. -/
theorem handler_eq (sec : Section) (env : Env) (w : ResponseWriter) (r : Request)
    (h : sec.bare ≠ some r.URL.Path) :
    sec.handler env w r = loadAndRender env w (sec.file env r.URL.Path) := by
  cases sec
  · have h1 : r.URL.Path ≠ "/blog" := fun e => h (by simp [Section.bare, e])
    simp [Section.handler, Section.file, renderBlog_eq, h1]
  · have h1 : r.URL.Path ≠ "/episodes" := fun e => h (by simp [Section.bare, e])
    simp [Section.handler, Section.file, renderShow_eq, h1]
  · simp [Section.handler, Section.file, renderHome_eq]

/-! ## Lemmas on the resolved file -/

theorem blogFile_named (env : Env) (N : String) (hN : N ≠ "") :
    blogFile env ("/blog/" ++ N) = "blog/" ++ hostName env.PathSeparator N ++ ".md" := by
  simp [blogFile, TrimPrefix_append, hN, ReplaceAll_slash]

theorem showFile_named (env : Env) (N : String) (hN : N ≠ "") :
    showFile env ("/episodes/" ++ N) =
      "episodes/" ++ hostName env.PathSeparator N ++ ".md" := by
  simp [showFile, TrimPrefix_append, hN, ReplaceAll_slash]

theorem homeFile_named (env : Env) (N : String) (hN : N ≠ "") :
    homeFile env ("/" ++ N) = "pages/" ++ hostName env.PathSeparator N ++ ".md" := by
  simp [homeFile, TrimPrefix_append, hN, ReplaceAll_slash]

theorem blogFile_default (env : Env) : blogFile env "/blog/" = "blog/index.md.md" := by
  have h : strings.TrimPrefix "/blog/" "/blog/" = "" := by decide
  simp only [blogFile, h, ReplaceAll_slash]
  rfl

theorem showFile_default (env : Env) :
    showFile env "/episodes/" = "episodes/index.md.md" := by
  have h : strings.TrimPrefix "/episodes/" "/episodes/" = "" := by decide
  simp only [showFile, h, ReplaceAll_slash]
  rfl

theorem homeFile_default (env : Env) : homeFile env "/" = "pages/index.md" := by
  have h : strings.TrimPrefix "/" "/" = "" := by decide
  simp only [homeFile, h, ReplaceAll_slash]
  rfl

theorem append_ne_bare (p N : String) (c : Char) : p ++ String.singleton c ++ N ≠ p := by
  intro h
  have h1 := congrArg String.length h
  simp [String.length_append] at h1
  have h2 : (String.singleton c).length = 1 := rfl
  omega

theorem blog_named_ne (N : String) : "/blog/" ++ N ≠ "/blog" :=
  append_ne_bare "/blog" N '/'

theorem show_named_ne (N : String) : "/episodes/" ++ N ≠ "/episodes" :=
  append_ne_bare "/episodes" N '/'

/-! ## Lemmas on the response writer -/

theorem Write_fresh (r : Request) (x : String) :
    (ResponseWriter.fresh r).Write x =
      { req := r, header := [], wroteHeader := true, status := 200, sent := [],
        body := if r.Method = "HEAD" then "" else x } := by
  by_cases hx : x = "" <;> by_cases hm : r.Method = "HEAD" <;>
    simp [ResponseWriter.Write, ResponseWriter.fresh, ResponseWriter.WriteHeader,
      ResponseWriter.bodyAllowedForStatus, hx, hm]

theorem Write_keep (w : ResponseWriter) (x : String)
    (h : w.wroteHeader = true) (hs : ResponseWriter.bodyAllowedForStatus w.status = true)
    (hm : w.req.Method ≠ "HEAD") :
    w.Write x = { w with body := w.body ++ x } := by
  obtain ⟨req, hd, wh, st, sn, bd⟩ := w
  by_cases hx : x = "" <;> simp_all [ResponseWriter.Write]

theorem foldl_Write_keep (ws : List String) (w : ResponseWriter)
    (h : w.wroteHeader = true) (hs : ResponseWriter.bodyAllowedForStatus w.status = true)
    (hm : w.req.Method ≠ "HEAD") :
    ws.foldl ResponseWriter.Write w = { w with body := ws.foldl (· ++ ·) w.body } := by
  induction ws generalizing w with
  | nil => rfl
  | cons x xs ih =>
    have hw := Write_keep w x h hs hm
    have h2 := ih { w with body := w.body ++ x } h hs hm
    rw [List.foldl_cons, hw, h2]
    rfl

theorem foldl_Write_head (ws : List String) (w : ResponseWriter)
    (h : w.wroteHeader = true) (hm : w.req.Method = "HEAD") :
    ws.foldl ResponseWriter.Write w = w := by
  induction ws with
  | nil => rfl
  | cons x xs ih =>
    have hw : w.Write x = w := by
      by_cases hx : x = "" <;>
        by_cases hs : ResponseWriter.bodyAllowedForStatus w.status = true <;>
        simp [ResponseWriter.Write, h, hs, hm, hx]
    rw [List.foldl_cons, hw, ih]

theorem foldl_Write_cons_fresh (r : Request) (x : String) (xs : List String) :
    (x :: xs).foldl ResponseWriter.Write (.fresh r) =
      { req := r, header := [], wroteHeader := true, status := 200, sent := [],
        body := if r.Method = "HEAD" then "" else (x :: xs).foldl (· ++ ·) "" } := by
  rw [List.foldl_cons, Write_fresh]
  by_cases hm : r.Method = "HEAD"
  · rw [foldl_Write_head xs
      { req := r, header := [], wroteHeader := true, status := 200, sent := [],
        body := if r.Method = "HEAD" then "" else x } rfl hm]
    simp [hm]
  · rw [foldl_Write_keep xs
      { req := r, header := [], wroteHeader := true, status := 200, sent := [],
        body := if r.Method = "HEAD" then "" else x } rfl rfl hm]
    simp [hm]

theorem response_foldl_Write_fresh (r : Request) (ws : List String) :
    (ws.foldl ResponseWriter.Write (.fresh r)).response =
      { status := 200, header := [],
        body := if r.Method = "HEAD" then "" else String.join ws } := by
  cases ws with
  | nil =>
    by_cases hm : r.Method = "HEAD" <;>
      simp [ResponseWriter.response, ResponseWriter.finish, ResponseWriter.WriteHeader,
        ResponseWriter.fresh, String.join, hm]
  | cons x xs =>
    rw [foldl_Write_cons_fresh]
    rfl

theorem response_Error_fresh_notFound (r : Request) :
    (http.Error (.fresh r) "File not found" http.StatusNotFound).response =
      { notFoundResponse with
        body := if r.Method = "HEAD" then "" else "File not found\n" } := by
  by_cases hm : r.Method = "HEAD" <;>
    simp [http.Error, Fprintln, ResponseWriter.Write, ResponseWriter.WriteHeader,
      ResponseWriter.fresh, ResponseWriter.response, ResponseWriter.finish,
      ResponseWriter.bodyAllowedForStatus, http.StatusNotFound, notFoundResponse,
      Header.Set, Header.Del, hm]

theorem response_Error_fresh_serverError (r : Request) :
    (http.Error (.fresh r) "Internal Server Error"
        http.StatusInternalServerError).response =
      { serverErrorResponse with
        body := if r.Method = "HEAD" then "" else "Internal Server Error\n" } := by
  by_cases hm : r.Method = "HEAD" <;>
    simp [http.Error, Fprintln, ResponseWriter.Write, ResponseWriter.WriteHeader,
      ResponseWriter.fresh, ResponseWriter.response, ResponseWriter.finish,
      ResponseWriter.bodyAllowedForStatus, http.StatusInternalServerError,
      serverErrorResponse, Header.Set, Header.Del, hm]

theorem response_Error_after_write (r : Request) (x : String) (xs : List String) :
    (http.Error ((x :: xs).foldl ResponseWriter.Write (.fresh r)) "Internal Server Error"
        http.StatusInternalServerError).response =
      { status := 200, header := [],
        body := if r.Method = "HEAD" then ""
          else String.join (x :: xs) ++ "Internal Server Error\n" } := by
  rw [foldl_Write_cons_fresh]
  by_cases hm : r.Method = "HEAD" <;>
    simp [http.Error, Fprintln, ResponseWriter.Write, ResponseWriter.WriteHeader,
      ResponseWriter.response, ResponseWriter.finish,
      ResponseWriter.bodyAllowedForStatus, String.join, hm]

/-! Replacing the request of a writer by one with the same method changes
nothing but the `req` field. -/

theorem WriteHeader_setReq (w : ResponseWriter) (r : Request) (code : Nat) :
    (w.setReq r).WriteHeader code = (w.WriteHeader code).setReq r := by
  by_cases h : w.wroteHeader = true <;>
    simp [ResponseWriter.WriteHeader, ResponseWriter.setReq, h]

theorem Write_setReq (w : ResponseWriter) (r : Request) (x : String)
    (hm : r.Method = w.req.Method) :
    (w.setReq r).Write x = (w.Write x).setReq r := by
  obtain ⟨req, hd, wh, st, sn, bd⟩ := w
  simp only [ResponseWriter.Write, ResponseWriter.WriteHeader, ResponseWriter.setReq] at hm ⊢
  split_ifs <;> simp_all

theorem Write_req (w : ResponseWriter) (x : String) : (w.Write x).req = w.req := by
  obtain ⟨req, hd, wh, st, sn, bd⟩ := w
  simp only [ResponseWriter.Write, ResponseWriter.WriteHeader]
  split_ifs <;> rfl

theorem foldl_Write_setReq (ws : List String) (w : ResponseWriter) (r : Request)
    (hm : r.Method = w.req.Method) :
    ws.foldl ResponseWriter.Write (w.setReq r) =
      (ws.foldl ResponseWriter.Write w).setReq r ∧
    (ws.foldl ResponseWriter.Write w).req = w.req := by
  induction ws generalizing w with
  | nil => exact ⟨rfl, rfl⟩
  | cons x xs ih =>
    have h1 := ih (w.Write x) (by rw [Write_req]; exact hm)
    rw [List.foldl_cons, List.foldl_cons, Write_setReq w r x hm]
    exact ⟨h1.1, by rw [h1.2, Write_req]⟩

theorem Error_setReq (w : ResponseWriter) (r : Request) (msg : String) (code : Nat)
    (hm : r.Method = w.req.Method) :
    http.Error (w.setReq r) msg code = (http.Error w msg code).setReq r := by
  have h := Write_setReq
    ({ w with header := ((w.header.Del "Content-Length").Set "Content-Type"
        "text/plain; charset=utf-8").Set "X-Content-Type-Options" "nosniff" }.WriteHeader code)
    r (msg ++ "\n")
    (by by_cases hw : w.wroteHeader = true <;> simp [ResponseWriter.WriteHeader, hw, hm])
  rw [← WriteHeader_setReq] at h
  exact h

theorem response_setReq (w : ResponseWriter) (r : Request) :
    (w.setReq r).response = w.response := by
  by_cases h : w.wroteHeader = true <;>
    simp [ResponseWriter.response, ResponseWriter.finish, ResponseWriter.WriteHeader,
      ResponseWriter.setReq, h]

/-! ## Lemmas on the shared half of the handlers -/

theorem loadAndRender_error (env : Env) (w : ResponseWriter) (p : String) (e : ReadError)
    (h : env.ReadFile p = .error e) :
    loadAndRender env w p =
      (http.Error w "File not found" http.StatusNotFound, [.Println p, .ReadFile p]) := by
  simp [loadAndRender, h]

theorem loadAndRender_ok (env : Env) (w : ResponseWriter) (p c : String)
    (h : env.ReadFile p = .ok c) (hx : (env.Execute ⟨⟨env.Run c⟩⟩).err = none) :
    loadAndRender env w p =
      ((env.Execute ⟨⟨env.Run c⟩⟩).writes.foldl ResponseWriter.Write w,
        [.Println p, .ReadFile p, .Run c, .Execute ⟨⟨env.Run c⟩⟩]) := by
  simp [loadAndRender, h, hx]

theorem loadAndRender_fail (env : Env) (w : ResponseWriter) (p c m : String)
    (h : env.ReadFile p = .ok c) (hx : (env.Execute ⟨⟨env.Run c⟩⟩).err = some m) :
    loadAndRender env w p =
      (http.Error ((env.Execute ⟨⟨env.Run c⟩⟩).writes.foldl ResponseWriter.Write w)
          "Internal Server Error" http.StatusInternalServerError,
        [.Println p, .ReadFile p, .Run c, .Execute ⟨⟨env.Run c⟩⟩]) := by
  simp [loadAndRender, h, hx]

theorem filesRead_loadAndRender (env : Env) (w : ResponseWriter) (p : String) :
    filesRead (loadAndRender env w p).2 = [p] := by
  cases h : env.ReadFile p with
  | error e => rw [loadAndRender_error env w p e h]; rfl
  | ok c =>
    cases hx : (env.Execute ⟨⟨env.Run c⟩⟩).err with
    | none => rw [loadAndRender_ok env w p c h hx]; rfl
    | some m => rw [loadAndRender_fail env w p c m h hx]; rfl

theorem mem_effects_loadAndRender (env : Env) (w : ResponseWriter) (p q : String)
    (hq : Effect.ReadFile q ∈ (loadAndRender env w p).2) : q = p := by
  cases h : env.ReadFile p with
  | error e =>
    rw [loadAndRender_error env w p e h] at hq
    simpa using hq
  | ok c =>
    cases hx : (env.Execute ⟨⟨env.Run c⟩⟩).err with
    | none =>
      rw [loadAndRender_ok env w p c h hx] at hq
      simpa using hq
    | some m =>
      rw [loadAndRender_fail env w p c m h hx] at hq
      simpa using hq

/-- The status and the headers of the response of the shared half on a fresh
writer have one of three shapes. -/
theorem response_loadAndRender (env : Env) (r : Request) (p : String) :
    ((loadAndRender env (.fresh r) p).1.response.status = 404 ∧
      (loadAndRender env (.fresh r) p).1.response.header = notFoundResponse.header) ∨
    ((loadAndRender env (.fresh r) p).1.response.status = 500 ∧
      (loadAndRender env (.fresh r) p).1.response.header = serverErrorResponse.header) ∨
    ((loadAndRender env (.fresh r) p).1.response.status = 200 ∧
      (loadAndRender env (.fresh r) p).1.response.header = []) := by
  cases h : env.ReadFile p with
  | error e =>
    left
    rw [loadAndRender_error env _ p e h, response_Error_fresh_notFound]
    exact ⟨rfl, rfl⟩
  | ok c =>
    right
    cases hx : (env.Execute ⟨⟨env.Run c⟩⟩).err with
    | none =>
      right
      rw [loadAndRender_ok env _ p c h hx, response_foldl_Write_fresh]
      exact ⟨rfl, rfl⟩
    | some m =>
      rw [loadAndRender_fail env _ p c m h hx]
      cases hw : (env.Execute ⟨⟨env.Run c⟩⟩).writes with
      | nil =>
        left
        rw [List.foldl_nil, response_Error_fresh_serverError]
        exact ⟨rfl, rfl⟩
      | cons x xs =>
        right
        rw [response_Error_after_write]
        exact ⟨rfl, rfl⟩

theorem Section.file_prefix_suffix (sec : Section) (env : Env) (path : String) :
    strings.HasPrefix (sec.file env path) (sec.root ++ "/") = true ∧
      strings.HasSuffix (sec.file env path) ".md" = true := by
  have key : ∀ a mid : String,
      strings.HasPrefix (a ++ mid ++ ".md") a = true ∧
        strings.HasSuffix (a ++ mid ++ ".md") ".md" = true := by
    intro a mid
    constructor
    · simp [strings.HasPrefix, String.data_append, List.isPrefixOf_iff_prefix,
        List.append_assoc]
    · simp only [strings.HasSuffix, String.data_append, List.isSuffixOf_iff_suffix]
      exact List.suffix_append _ _
  cases sec
  · exact key "blog/" _
  · exact key "episodes/" _
  · exact key "pages/" _

theorem handler_bare (sec : Section) (env : Env) (w : ResponseWriter) (r : Request)
    (h : sec.bare = some r.URL.Path) : (sec.handler env w r).2 = [] := by
  cases sec
  · have h1 : r.URL.Path = "/blog" := by simpa [Section.bare] using h.symm
    simp [Section.handler, renderBlog_eq, h1]
  · have h1 : r.URL.Path = "/episodes" := by simpa [Section.bare] using h.symm
    simp [Section.handler, renderShow_eq, h1]
  · simp [Section.bare] at h

theorem response_Redirect_fresh (m path url : String) :
    (http.Redirect (.fresh ⟨m, ⟨path⟩⟩) ⟨m, ⟨path⟩⟩ url
      http.StatusMovedPermanently).response.status = 301 ∧
    (http.Redirect (.fresh ⟨m, ⟨path⟩⟩) ⟨m, ⟨path⟩⟩ url
      http.StatusMovedPermanently).response.header.Get "Location" = some url ∧
    (http.Redirect (.fresh ⟨m, ⟨path⟩⟩) ⟨m, ⟨path⟩⟩ url
      http.StatusMovedPermanently).response.body =
        if m = "GET" then "<a href=\"" ++ url ++ "\">Moved Permanently</a>.\n\n" else "" := by
  by_cases hg : m = "GET"
  · subst hg
    have hne : ("GET" : String) ≠ "HEAD" := by decide
    simp [http.Redirect, ResponseWriter.response, ResponseWriter.finish,
      ResponseWriter.WriteHeader, Write_keep, ResponseWriter.fresh, Fprintln,
      ResponseWriter.bodyAllowedForStatus, http.StatusText,
      Header.Get, Header.Set, Header.Del, http.StatusMovedPermanently, List.lookup,
      String.append_assoc, hne]
  · by_cases hh : m = "HEAD"
    · subst hh
      simp [http.Redirect, ResponseWriter.response, ResponseWriter.finish,
        ResponseWriter.WriteHeader, ResponseWriter.Write, ResponseWriter.fresh, Fprintln,
        Header.Get, Header.Set, Header.Del, http.StatusMovedPermanently, List.lookup]
    · simp [http.Redirect, ResponseWriter.response, ResponseWriter.finish,
        ResponseWriter.WriteHeader, ResponseWriter.Write, ResponseWriter.fresh, Fprintln,
        Header.Get, Header.Set, Header.Del, http.StatusMovedPermanently, List.lookup, hg, hh]

theorem eq_slash_append_of_HasPrefix (s : String) (h : strings.HasPrefix s "/" = true) :
    ∃ N : String, s = "/" ++ N := by
  obtain ⟨l⟩ := s
  cases l with
  | nil => simp [strings.HasPrefix] at h
  | cons c cs =>
    have hc : c = '/' := by
      have h1 : ("/" : String).data = ['/'] := rfl
      simp [strings.HasPrefix, h1] at h
      exact h.symm
    subst hc
    exact ⟨⟨cs⟩, rfl⟩

theorem blogFile_relative (env : Env) (N : String) :
    blogFile env ("/blog/" ++ N) = "blog/" ++ relativeFile env N := by
  simp [blogFile, relativeFile, TrimPrefix_append, String.append_assoc]

theorem showFile_relative (env : Env) (N : String) :
    showFile env ("/episodes/" ++ N) = "episodes/" ++ relativeFile env N := by
  simp [showFile, relativeFile, TrimPrefix_append, String.append_assoc]

theorem loadAndRender_congr (env : Env) (w : ResponseWriter) (p q : String)
    (h : env.ReadFile p = env.ReadFile q) :
    (loadAndRender env w p).1 = (loadAndRender env w q).1 ∧
      (loadAndRender env w p).2.drop 2 = (loadAndRender env w q).2.drop 2 := by
  cases hq : env.ReadFile q with
  | error e =>
    rw [loadAndRender_error env w q e hq, loadAndRender_error env w p e (h.trans hq)]
    exact ⟨rfl, rfl⟩
  | ok c =>
    cases hx : (env.Execute ⟨⟨env.Run c⟩⟩).err with
    | none =>
      rw [loadAndRender_ok env w q c hq hx, loadAndRender_ok env w p c (h.trans hq) hx]
      exact ⟨rfl, rfl⟩
    | some m =>
      rw [loadAndRender_fail env w q c m hq hx,
        loadAndRender_fail env w p c m (h.trans hq) hx]
      exact ⟨rfl, rfl⟩

theorem loadAndRender_setReq (env : Env) (w : ResponseWriter) (r : Request) (p : String)
    (hm : r.Method = w.req.Method) :
    (loadAndRender env (w.setReq r) p).1 = (loadAndRender env w p).1.setReq r ∧
      (loadAndRender env (w.setReq r) p).2 = (loadAndRender env w p).2 := by
  cases hq : env.ReadFile p with
  | error e =>
    rw [loadAndRender_error env w p e hq, loadAndRender_error env _ p e hq]
    exact ⟨Error_setReq w r "File not found" http.StatusNotFound hm, rfl⟩
  | ok c =>
    have hf := foldl_Write_setReq (env.Execute ⟨⟨env.Run c⟩⟩).writes w r hm
    cases hx : (env.Execute ⟨⟨env.Run c⟩⟩).err with
    | none =>
      rw [loadAndRender_ok env w p c hq hx, loadAndRender_ok env _ p c hq hx]
      exact ⟨hf.1, rfl⟩
    | some m =>
      rw [loadAndRender_fail env w p c m hq hx, loadAndRender_fail env _ p c m hq hx]
      refine ⟨?_, rfl⟩
      dsimp only
      rw [hf.1]
      exact Error_setReq _ r _ _ (by rw [hf.2]; exact hm)

/-- The shared half answers two requests of one method in the same way when the
two files read give the same result. -/
theorem response_loadAndRender_congr (env : Env) (r1 r2 : Request) (p q : String)
    (hm : r1.Method = r2.Method) (h : env.ReadFile p = env.ReadFile q) :
    (loadAndRender env (.fresh r1) p).1.response =
        (loadAndRender env (.fresh r2) q).1.response ∧
      (loadAndRender env (.fresh r1) p).2.drop 2 =
        (loadAndRender env (.fresh r2) q).2.drop 2 := by
  have hc := loadAndRender_congr env (.fresh r1) p q h
  have hs := loadAndRender_setReq env (.fresh r1) r2 q hm.symm
  have hf : (ResponseWriter.fresh r1).setReq r2 = .fresh r2 := rfl
  rw [hf] at hs
  rw [hs.1, hs.2, response_setReq, hc.1]
  exact ⟨rfl, hc.2⟩

/-! ## The claims -/

/-- C1 (default document).  On `/blog/` the blog handler reads
`blog/index.md.md`, and on `/episodes/` the episodes handler reads
`episodes/index.md.md`: the default name already carries the extension that the
path format adds again.  Only the home handler reads `pages/index.md` on `/`.
On a host whose sections hold an `index.md` each, `GET /blog/` and
`GET /episodes/` are therefore answered with 404 and `GET /` with 200. -/
theorem default_document_reads (env : Env) (w : ResponseWriter) (m : String) :
    filesRead (renderBlog env w ⟨m, ⟨"/blog/"⟩⟩).2 = ["blog/index.md.md"] ∧
    filesRead (renderShow env w ⟨m, ⟨"/episodes/"⟩⟩).2 = ["episodes/index.md.md"] ∧
    filesRead (renderHome env w ⟨m, ⟨"/"⟩⟩).2 = ["pages/index.md"] ∧
    "blog/index.md.md" ≠ "blog/index.md" ∧
    "episodes/index.md.md" ≠ "episodes/index.md" ∧
    (renderBlog indexEnv (.fresh (GET "/blog/")) (GET "/blog/")).1.response.status = 404 ∧
    (renderShow indexEnv (.fresh (GET "/episodes/")) (GET "/episodes/")).1.response.status
      = 404 ∧
    (renderHome indexEnv (.fresh (GET "/")) (GET "/")).1.response.status = 200 := by
  refine ⟨?_, ?_, ?_, by decide, by decide, by decide, by decide, by decide⟩
  · have hne : ("/blog/" : String) ≠ "/blog" := by decide
    simp only [renderBlog_eq, hne, if_false, filesRead_loadAndRender, blogFile_default]
  · have hne : ("/episodes/" : String) ≠ "/episodes" := by decide
    simp only [renderShow_eq, hne, if_false, filesRead_loadAndRender, showFile_default]
  · simp only [renderHome_eq, filesRead_loadAndRender, homeFile_default]

/-- C2 (named document).  For a non-empty name `N`, the request `/blog/N` makes
`renderBlog` read exactly `blog/` + N' + `.md`, `/episodes/N` makes `renderShow`
read exactly `episodes/` + N' + `.md` and `/N` makes `renderHome` read exactly
`pages/` + N' + `.md`, where N' is `N` with each `/` replaced by the host
separator and every other character kept; N' is `N` on a host whose separator is
`/`. -/
theorem named_document_reads (env : Env) (w : ResponseWriter) (m N : String)
    (hN : N ≠ "") :
    filesRead (renderBlog env w ⟨m, ⟨"/blog/" ++ N⟩⟩).2 =
      ["blog/" ++ hostName env.PathSeparator N ++ ".md"] ∧
    filesRead (renderShow env w ⟨m, ⟨"/episodes/" ++ N⟩⟩).2 =
      ["episodes/" ++ hostName env.PathSeparator N ++ ".md"] ∧
    filesRead (renderHome env w ⟨m, ⟨"/" ++ N⟩⟩).2 =
      ["pages/" ++ hostName env.PathSeparator N ++ ".md"] ∧
    (hostName env.PathSeparator N).data =
      N.data.map (fun c => if c = '/' then env.PathSeparator else c) ∧
    (env.PathSeparator = '/' → hostName env.PathSeparator N = N) := by
  refine ⟨?_, ?_, ?_, rfl, ?_⟩
  · simp only [renderBlog_eq, blog_named_ne, if_false, filesRead_loadAndRender,
      blogFile_named env N hN]
  · simp only [renderShow_eq, show_named_ne, if_false, filesRead_loadAndRender,
      showFile_named env N hN]
  · simp only [renderHome_eq, filesRead_loadAndRender, homeFile_named env N hN]
  · intro h
    rw [h]
    exact hostName_slash N

/-- Witness of C2: the name `hello` on the sample Unix host. -/
theorem named_document_reads_witness :
    "hello" ≠ "" ∧
    filesRead (renderBlog siteEnv (.fresh (GET "/blog/hello")) ⟨"GET", ⟨"/blog/hello"⟩⟩).2 =
      ["blog/hello.md"] ∧
    filesRead (renderShow siteEnv (.fresh (GET "/episodes/hello"))
      ⟨"GET", ⟨"/episodes/hello"⟩⟩).2 = ["episodes/hello.md"] ∧
    filesRead (renderHome siteEnv (.fresh (GET "/hello")) ⟨"GET", ⟨"/hello"⟩⟩).2 =
      ["pages/hello.md"] :=
  ⟨by decide,
    (named_document_reads siteEnv (.fresh (GET "/blog/hello")) "GET" "hello" (by decide)).1,
    (named_document_reads siteEnv (.fresh (GET "/episodes/hello")) "GET" "hello"
      (by decide)).2.1,
    (named_document_reads siteEnv (.fresh (GET "/hello")) "GET" "hello" (by decide)).2.2.1⟩

/-- C3, the claim as stated, fails for a `HEAD` request.  `HEAD /blog/missing` on
the sample host is not the bare prefix, the read of the resolved file fails, and
the response has status 404 but an empty body: the server drops what a handler
writes in answer to `HEAD`. -/
theorem head_read_failure_body_empty :
    Section.Blog.bare ≠ some (HEAD "/blog/missing").URL.Path ∧
    siteEnv.ReadFile (Section.Blog.file siteEnv "/blog/missing") = .error .notExist ∧
    filesRead (renderBlog siteEnv (.fresh (HEAD "/blog/missing")) (HEAD "/blog/missing")).2 =
      ["blog/missing.md"] ∧
    (renderBlog siteEnv (.fresh (HEAD "/blog/missing"))
      (HEAD "/blog/missing")).1.response.status = 404 ∧
    (renderBlog siteEnv (.fresh (HEAD "/blog/missing"))
      (HEAD "/blog/missing")).1.response.body = "" := by
  refine ⟨by decide, rfl, by decide, by decide, by decide⟩

/-- C3 as amended (uniform not-found).  For every section and every request that
is not the section's bare prefix, if `os.ReadFile` fails on the resolved file for
whatever reason `e`, the response has status 404 and the headers of
`http.Error`, among them the content type `text/plain`; for every method other
than `HEAD` it is the one fixed response `notFoundResponse`, whose body is the
non-empty text `File not found` and a line end, and for `HEAD` its body is
empty.  In either case the handler logged the path and tried the read and did
nothing else: no Markdown conversion, no template execution. -/
theorem read_failure_is_not_found (sec : Section) (env : Env) (r : Request)
    (e : ReadError) (hbare : sec.bare ≠ some r.URL.Path)
    (hfail : env.ReadFile (sec.file env r.URL.Path) = .error e) :
    (sec.handler env (.fresh r) r).1.response.status = 404 ∧
    (sec.handler env (.fresh r) r).1.response.header = notFoundResponse.header ∧
    (sec.handler env (.fresh r) r).1.response.header.Get "Content-Type" =
      some "text/plain; charset=utf-8" ∧
    (r.Method ≠ "HEAD" → (sec.handler env (.fresh r) r).1.response = notFoundResponse) ∧
    (r.Method = "HEAD" → (sec.handler env (.fresh r) r).1.response.body = "") ∧
    (sec.handler env (.fresh r) r).2 =
      [.Println (sec.file env r.URL.Path), .ReadFile (sec.file env r.URL.Path)] ∧
    notFoundResponse.status = 404 ∧
    notFoundResponse.body = "File not found\n" ∧
    notFoundResponse.body ≠ "" := by
  rw [handler_eq sec env _ r hbare, loadAndRender_error env _ _ e hfail,
    response_Error_fresh_notFound]
  refine ⟨rfl, rfl, rfl, ?_, ?_, rfl, rfl, rfl, by decide⟩
  · intro h
    simp only [h, if_false]
    rfl
  · intro h
    simp only [h, if_true]

/-- Witness of C3 as amended: a missing blog post, a page path that names a
directory and a page the process may not read all give the same response to
`GET`, and the missing blog post gives 404 without a body to `HEAD`. -/
theorem read_failure_is_not_found_witness :
    (renderBlog siteEnv (.fresh (GET "/blog/missing")) (GET "/blog/missing")).1.response =
      notFoundResponse ∧
    (renderBlog siteEnv (.fresh (GET "/blog/missing")) (GET "/blog/missing")).2 =
      [.Println "blog/missing.md", .ReadFile "blog/missing.md"] ∧
    (renderHome siteEnv (.fresh (GET "/drafts")) (GET "/drafts")).1.response =
      notFoundResponse ∧
    (renderHome siteEnv (.fresh (GET "/private")) (GET "/private")).1.response =
      notFoundResponse ∧
    (renderBlog siteEnv (.fresh (HEAD "/blog/missing"))
      (HEAD "/blog/missing")).1.response.status = 404 :=
  have h1 := read_failure_is_not_found .Blog siteEnv (GET "/blog/missing") .notExist
    (by decide) rfl
  have h2 := read_failure_is_not_found .Page siteEnv (GET "/drafts") .isDirectory
    (by decide) rfl
  have h3 := read_failure_is_not_found .Page siteEnv (GET "/private") .permission
    (by decide) rfl
  have h4 := read_failure_is_not_found .Blog siteEnv (HEAD "/blog/missing") .notExist
    (by decide) rfl
  ⟨h1.2.2.2.1 (by decide), h1.2.2.2.2.2.1, h2.2.2.2.1 (by decide),
    h3.2.2.2.1 (by decide), h4.1⟩

/-- C4, the claim as stated, fails for a `HEAD` request.  On the sample host the
page `about` is readable and the template runs without error and writes
`<html><p>Hi</p></html>`, yet `HEAD /about` is answered with status 200 and an
empty body. -/
theorem head_render_body_empty :
    siteEnv.ReadFile (Section.Page.file siteEnv (Section.Page.route ++ "about")) = .ok "Hi" ∧
    (siteEnv.Execute { Content := ⟨siteEnv.Run "Hi"⟩ }).err = none ∧
    String.join (siteEnv.Execute { Content := ⟨siteEnv.Run "Hi"⟩ }).writes =
      "<html><p>Hi</p></html>" ∧
    (renderHome siteEnv (.fresh (HEAD "/about")) (HEAD "/about")).1.response.status = 200 ∧
    (renderHome siteEnv (.fresh (HEAD "/about")) (HEAD "/about")).1.response.body = "" ∧
    (renderHome siteEnv (.fresh (HEAD "/about")) (HEAD "/about")).1.response.body ≠
      String.join (siteEnv.Execute { Content := ⟨siteEnv.Run "Hi"⟩ }).writes := by
  refine ⟨rfl, rfl, by decide, by decide, by decide, by decide⟩

/-- C4 as amended (successful render).  For every section, every method `m` and
every name `N`, empty or not: if the file the handler resolves `N` to is readable
with content `c` and the template runs without error on the page data whose
`Content` is the converted `c` as `template.HTML`, then the response has status
200; its body is exactly what that template run wrote when `m` is not `HEAD`,
and empty when `m` is `HEAD`.  In either case the handler performed, in order,
the log line, the read, the conversion of `c` and the template run on that
unaltered conversion.  For a non-empty `N` the resolved file is the section
root, `/`, `N` with the host separator for `/`, and `.md`. -/
theorem render_success (sec : Section) (env : Env) (m N c : String)
    (hbare : sec.bare ≠ some (sec.route ++ N))
    (hread : env.ReadFile (sec.file env (sec.route ++ N)) = .ok c)
    (hexec : (env.Execute { Content := ⟨env.Run c⟩ }).err = none) :
    (sec.handler env (.fresh ⟨m, ⟨sec.route ++ N⟩⟩)
      ⟨m, ⟨sec.route ++ N⟩⟩).1.response.status = 200 ∧
    (m ≠ "HEAD" →
      (sec.handler env (.fresh ⟨m, ⟨sec.route ++ N⟩⟩)
        ⟨m, ⟨sec.route ++ N⟩⟩).1.response.body =
          String.join (env.Execute { Content := ⟨env.Run c⟩ }).writes) ∧
    (m = "HEAD" →
      (sec.handler env (.fresh ⟨m, ⟨sec.route ++ N⟩⟩)
        ⟨m, ⟨sec.route ++ N⟩⟩).1.response.body = "") ∧
    (sec.handler env (.fresh ⟨m, ⟨sec.route ++ N⟩⟩) ⟨m, ⟨sec.route ++ N⟩⟩).2 =
      [.Println (sec.file env (sec.route ++ N)), .ReadFile (sec.file env (sec.route ++ N)),
        .Run c, .Execute { Content := ⟨env.Run c⟩ }] ∧
    (N ≠ "" → sec.file env (sec.route ++ N) =
      sec.root ++ "/" ++ hostName env.PathSeparator N ++ ".md") := by
  rw [handler_eq sec env _ ⟨m, ⟨sec.route ++ N⟩⟩ hbare,
    loadAndRender_ok env _ _ c hread hexec, response_foldl_Write_fresh]
  refine ⟨rfl, ?_, ?_, rfl, ?_⟩
  · intro h
    simp only [h, if_false]
  · intro h
    simp only [h, if_true]
  · intro hN
    cases sec
    · exact blogFile_named env N hN
    · exact showFile_named env N hN
    · exact homeFile_named env N hN

/-- Witness of C4 as amended: `GET` and `HEAD` for the page `about` on the sample
host. -/
theorem render_success_witness :
    (renderHome siteEnv (.fresh ⟨"GET", ⟨"/about"⟩⟩) ⟨"GET", ⟨"/about"⟩⟩).1.response.status
      = 200 ∧
    (renderHome siteEnv (.fresh ⟨"GET", ⟨"/about"⟩⟩) ⟨"GET", ⟨"/about"⟩⟩).1.response.body =
      "<html><p>Hi</p></html>" ∧
    (renderHome siteEnv (.fresh ⟨"HEAD", ⟨"/about"⟩⟩) ⟨"HEAD", ⟨"/about"⟩⟩).1.response.body =
      "" :=
  have h := render_success .Page siteEnv "GET" "about" "Hi" (by decide) rfl rfl
  have h2 := render_success .Page siteEnv "HEAD" "about" "Hi" (by decide) rfl rfl
  ⟨h.1, h.2.1 (by decide), h2.2.2.1 rfl⟩

/-- C5 (bare-prefix redirect).  On the path `/blog` the blog handler answers 301
with `Location: /blog/`, on `/episodes` the episodes handler answers 301 with
`Location: /episodes/`, whatever the request method, and in both cases the handler
performs no further step: no log line, no read, no conversion, no template run.
The home handler answers no request with 301 and never sets `Location`. -/
theorem bare_prefix_redirect (env : Env) (m : String) (r : Request) :
    ((renderBlog env (.fresh ⟨m, ⟨"/blog"⟩⟩) ⟨m, ⟨"/blog"⟩⟩).1.response.status = 301 ∧
      (renderBlog env (.fresh ⟨m, ⟨"/blog"⟩⟩) ⟨m, ⟨"/blog"⟩⟩).1.response.header.Get
        "Location" = some "/blog/" ∧
      (renderBlog env (.fresh ⟨m, ⟨"/blog"⟩⟩) ⟨m, ⟨"/blog"⟩⟩).2 = []) ∧
    ((renderShow env (.fresh ⟨m, ⟨"/episodes"⟩⟩) ⟨m, ⟨"/episodes"⟩⟩).1.response.status
        = 301 ∧
      (renderShow env (.fresh ⟨m, ⟨"/episodes"⟩⟩) ⟨m, ⟨"/episodes"⟩⟩).1.response.header.Get
        "Location" = some "/episodes/" ∧
      (renderShow env (.fresh ⟨m, ⟨"/episodes"⟩⟩) ⟨m, ⟨"/episodes"⟩⟩).2 = []) ∧
    ((renderHome env (.fresh r) r).1.response.status ≠ 301 ∧
      (renderHome env (.fresh r) r).1.response.header.Get "Location" = none) := by
  refine ⟨?_, ?_, ?_⟩
  · have h := response_Redirect_fresh m "/blog" "/blog/"
    simp only [renderBlog_eq, if_true]
    exact ⟨h.1, h.2.1, trivial⟩
  · have h := response_Redirect_fresh m "/episodes" "/episodes/"
    simp only [renderShow_eq, if_true]
    exact ⟨h.1, h.2.1, trivial⟩
  · rw [renderHome_eq]
    rcases response_loadAndRender env r (homeFile env r.URL.Path) with
      ⟨h1, h2⟩ | ⟨h1, h2⟩ | ⟨h1, h2⟩
    · rw [h1, h2]; exact ⟨by decide, by decide⟩
    · rw [h1, h2]; exact ⟨by decide, by decide⟩
    · rw [h1, h2]; exact ⟨by decide, rfl⟩

/-- C6 (template failure).  With a template that writes `<html>` and then fails,
`GET /blog/hello` (the file exists and is read) is answered with status 200 and
the body `<html>Internal Server Error` and a line end, and the `text/plain`
content type of `http.Error` is not among the headers sent: the status line
went out with the first chunk, so the `WriteHeader(500)` of `http.Error` and
the headers it sets come too late.  The same holds for the other two
handlers. -/
theorem template_failure_after_output :
    brokenTemplateEnv.ReadFile "blog/hello.md" = .ok "Hi" ∧
    brokenTemplateEnv.Execute { Content := ⟨brokenTemplateEnv.Run "Hi"⟩ } =
      { writes := ["<html>"], err := some "can't evaluate field Title" } ∧
    (renderBlog brokenTemplateEnv (.fresh (GET "/blog/hello")) (GET "/blog/hello")).2 =
      [.Println "blog/hello.md", .ReadFile "blog/hello.md", .Run "Hi",
        .Execute { Content := ⟨"<p>Hi</p>"⟩ }] ∧
    (renderBlog brokenTemplateEnv (.fresh (GET "/blog/hello"))
      (GET "/blog/hello")).1.response.status = 200 ∧
    (renderBlog brokenTemplateEnv (.fresh (GET "/blog/hello"))
      (GET "/blog/hello")).1.response.body = "<html>Internal Server Error\n" ∧
    (renderBlog brokenTemplateEnv (.fresh (GET "/blog/hello"))
      (GET "/blog/hello")).1.response.header.Get "Content-Type" = none ∧
    (renderShow brokenTemplateEnv (.fresh (GET "/episodes/hello"))
      (GET "/episodes/hello")).1.response.status = 200 ∧
    (renderShow brokenTemplateEnv (.fresh (GET "/episodes/hello"))
      (GET "/episodes/hello")).1.response.body = "<html>Internal Server Error\n" ∧
    (renderHome brokenTemplateEnv (.fresh (GET "/about"))
      (GET "/about")).1.response.status = 200 ∧
    (renderHome brokenTemplateEnv (.fresh (GET "/about"))
      (GET "/about")).1.response.body = "<html>Internal Server Error\n" := by
  refine ⟨rfl, rfl, by decide, by decide, by decide, by decide, by decide, by decide,
    by decide, by decide⟩

/-- When the template fails before it has written anything, the response is the
fixed 500 response with a plain-text body, without the body for `HEAD`. -/
theorem template_failure_before_output (sec : Section) (env : Env) (r : Request)
    (c m : String) (hbare : sec.bare ≠ some r.URL.Path)
    (hread : env.ReadFile (sec.file env r.URL.Path) = .ok c)
    (hexec : env.Execute { Content := ⟨env.Run c⟩ } = { writes := [], err := some m }) :
    (sec.handler env (.fresh r) r).1.response =
      { serverErrorResponse with
        body := if r.Method = "HEAD" then "" else "Internal Server Error\n" } := by
  have hx : (env.Execute ⟨⟨env.Run c⟩⟩).err = some m := by rw [hexec]
  rw [handler_eq sec env _ r hbare, loadAndRender_fail env _ _ c m hread hx, hexec]
  exact response_Error_fresh_serverError r

/-- C7 (no containment check).  The request `/blog/../pages/secret` makes
`renderBlog` read `blog/../pages/secret.md`, whose normal form
`pages/secret.md` is not under `blog/`.  In general every section's handler reads,
for every non-empty name `N`, the section root, `/`, `N` with only its `/`
replaced by the host separator, and `.md`: a segment `..` goes through as it is
and no name is turned away. -/
theorem no_containment_check (env : Env) (w : ResponseWriter) (m : String) :
    filesRead (renderBlog siteEnv (.fresh (GET "/blog/../pages/secret"))
      (GET "/blog/../pages/secret")).2 = ["blog/../pages/secret.md"] ∧
    Clean "blog/../pages/secret.md" = "pages/secret.md" ∧
    strings.HasPrefix (Clean "blog/../pages/secret.md") "blog/" = false ∧
    (∀ (sec : Section) (N : String), N ≠ "" →
      filesRead (sec.handler env w ⟨m, ⟨sec.route ++ N⟩⟩).2 =
        [sec.root ++ "/" ++ hostName env.PathSeparator N ++ ".md"]) ∧
    hostName env.PathSeparator ".." = ".." := by
  refine ⟨by decide, by decide, by decide, ?_, rfl⟩
  intro sec N hN
  cases sec
  · show filesRead (renderBlog env w ⟨m, ⟨"/blog/" ++ N⟩⟩).2 = _
    simp only [renderBlog_eq, blog_named_ne, if_false, filesRead_loadAndRender,
      blogFile_named env N hN]
    rfl
  · show filesRead (renderShow env w ⟨m, ⟨"/episodes/" ++ N⟩⟩).2 = _
    simp only [renderShow_eq, show_named_ne, if_false, filesRead_loadAndRender,
      showFile_named env N hN]
    rfl
  · show filesRead (renderHome env w ⟨m, ⟨"/" ++ N⟩⟩).2 = _
    simp only [renderHome_eq, filesRead_loadAndRender, homeFile_named env N hN]
    rfl

/-- C8 (resolved-path invariant).  Whatever the request path and whatever the
state of the writer, every path a section's handler gives to `os.ReadFile`
begins with the section root and `/` (`blog/`, `episodes/`, `pages/`) and ends
in `.md`. -/
theorem resolved_path_invariant (sec : Section) (env : Env) (w : ResponseWriter)
    (r : Request) (p : String) (h : Effect.ReadFile p ∈ (sec.handler env w r).2) :
    strings.HasPrefix p (sec.root ++ "/") = true ∧ strings.HasSuffix p ".md" = true := by
  by_cases hb : sec.bare = some r.URL.Path
  · rw [handler_bare sec env w r hb] at h
    simp at h
  · rw [handler_eq sec env w r hb] at h
    rw [mem_effects_loadAndRender env w _ p h]
    exact Section.file_prefix_suffix sec env r.URL.Path

/-- Witness of C8: a path that does not even carry the handler's prefix, given to
the episodes handler on a host whose separator is `/`. -/
theorem resolved_path_invariant_witness :
    Effect.ReadFile "episodes//blog/../x.md" ∈
      (renderShow siteEnv (.fresh (GET "/blog/../x")) (GET "/blog/../x")).2 ∧
    strings.HasPrefix "episodes//blog/../x.md" "episodes/" = true ∧
    strings.HasSuffix "episodes//blog/../x.md" ".md" = true :=
  have hmem : Effect.ReadFile "episodes//blog/../x.md" ∈
      (Section.Episode.handler siteEnv (.fresh (GET "/blog/../x")) (GET "/blog/../x")).2 := by
    decide
  have h := resolved_path_invariant .Episode siteEnv (.fresh (GET "/blog/../x"))
    (GET "/blog/../x") "episodes//blog/../x.md" hmem
  ⟨hmem, h.1, h.2⟩

/-- C10, the claim as stated, fails for `GET` on the bare prefix.  On a host
without files (so that the two handlers see identical file contents) `GET /blog`
and `GET /episodes` are both answered with 301, but the two bodies are
different: each holds a link to its own redirect target. -/
theorem blog_show_redirect_bodies_differ :
    (∀ f : String, emptyEnv.ReadFile ("blog/" ++ f) = emptyEnv.ReadFile ("episodes/" ++ f)) ∧
    (renderBlog emptyEnv (.fresh (GET ("/blog" ++ ""))) (GET ("/blog" ++ ""))).1.response.body =
      "<a href=\"/blog/\">Moved Permanently</a>.\n\n" ∧
    (renderShow emptyEnv (.fresh (GET ("/episodes" ++ "")))
      (GET ("/episodes" ++ ""))).1.response.body =
      "<a href=\"/episodes/\">Moved Permanently</a>.\n\n" ∧
    (renderBlog emptyEnv (.fresh (GET ("/blog" ++ ""))) (GET ("/blog" ++ ""))).1.response.body ≠
      (renderShow emptyEnv (.fresh (GET ("/episodes" ++ "")))
        (GET ("/episodes" ++ ""))).1.response.body := by
  refine ⟨fun _ => rfl, by decide, by decide, by decide⟩

/-- C10 as amended.  Let `s` be empty or begin with `/`, and let `m` be any
request method.  If `s` is empty, both handlers redirect with status 301, to
`/blog/` and `/episodes/` respectively, and perform no further step; the two
bodies are equal for every method other than `GET`, and for `GET` each body is
the HTML link to the handler's own target.  Otherwise there is one relative
file name `f` such that `renderBlog` on `/blog` + `s` reads exactly `blog/` + `f`
and `renderShow` on `/episodes` + `s` reads exactly `episodes/` + `f`; if
`os.ReadFile` gives the same result on these two paths, the two responses are
equal (status, headers and body) and the handlers performed the same conversion
and the same template run. -/
theorem blog_show_same_handler (env : Env) (m s : String)
    (hs : s = "" ∨ strings.HasPrefix s "/" = true) :
    (s = "" →
      (renderBlog env (.fresh ⟨m, ⟨"/blog" ++ s⟩⟩) ⟨m, ⟨"/blog" ++ s⟩⟩).1.response.status
        = 301 ∧
      (renderShow env (.fresh ⟨m, ⟨"/episodes" ++ s⟩⟩)
        ⟨m, ⟨"/episodes" ++ s⟩⟩).1.response.status = 301 ∧
      (renderBlog env (.fresh ⟨m, ⟨"/blog" ++ s⟩⟩)
        ⟨m, ⟨"/blog" ++ s⟩⟩).1.response.header.Get "Location" = some "/blog/" ∧
      (renderShow env (.fresh ⟨m, ⟨"/episodes" ++ s⟩⟩)
        ⟨m, ⟨"/episodes" ++ s⟩⟩).1.response.header.Get "Location" = some "/episodes/" ∧
      (renderBlog env (.fresh ⟨m, ⟨"/blog" ++ s⟩⟩) ⟨m, ⟨"/blog" ++ s⟩⟩).2 = [] ∧
      (renderShow env (.fresh ⟨m, ⟨"/episodes" ++ s⟩⟩) ⟨m, ⟨"/episodes" ++ s⟩⟩).2 = [] ∧
      (m ≠ "GET" →
        (renderBlog env (.fresh ⟨m, ⟨"/blog" ++ s⟩⟩) ⟨m, ⟨"/blog" ++ s⟩⟩).1.response.body =
          (renderShow env (.fresh ⟨m, ⟨"/episodes" ++ s⟩⟩)
            ⟨m, ⟨"/episodes" ++ s⟩⟩).1.response.body) ∧
      (m = "GET" →
        (renderBlog env (.fresh ⟨m, ⟨"/blog" ++ s⟩⟩) ⟨m, ⟨"/blog" ++ s⟩⟩).1.response.body =
          "<a href=\"/blog/\">Moved Permanently</a>.\n\n" ∧
        (renderShow env (.fresh ⟨m, ⟨"/episodes" ++ s⟩⟩)
          ⟨m, ⟨"/episodes" ++ s⟩⟩).1.response.body =
          "<a href=\"/episodes/\">Moved Permanently</a>.\n\n")) ∧
    (s ≠ "" → ∃ f : String,
      filesRead (renderBlog env (.fresh ⟨m, ⟨"/blog" ++ s⟩⟩) ⟨m, ⟨"/blog" ++ s⟩⟩).2 =
        ["blog/" ++ f] ∧
      filesRead (renderShow env (.fresh ⟨m, ⟨"/episodes" ++ s⟩⟩)
        ⟨m, ⟨"/episodes" ++ s⟩⟩).2 = ["episodes/" ++ f] ∧
      (env.ReadFile ("blog/" ++ f) = env.ReadFile ("episodes/" ++ f) →
        (renderBlog env (.fresh ⟨m, ⟨"/blog" ++ s⟩⟩) ⟨m, ⟨"/blog" ++ s⟩⟩).1.response =
          (renderShow env (.fresh ⟨m, ⟨"/episodes" ++ s⟩⟩)
            ⟨m, ⟨"/episodes" ++ s⟩⟩).1.response ∧
        (renderBlog env (.fresh ⟨m, ⟨"/blog" ++ s⟩⟩) ⟨m, ⟨"/blog" ++ s⟩⟩).2.drop 2 =
          (renderShow env (.fresh ⟨m, ⟨"/episodes" ++ s⟩⟩)
            ⟨m, ⟨"/episodes" ++ s⟩⟩).2.drop 2)) := by
  constructor
  · rintro rfl
    have hb := response_Redirect_fresh m "/blog" "/blog/"
    have he := response_Redirect_fresh m "/episodes" "/episodes/"
    have e1 : ("/blog" : String) ++ "" = "/blog" := by decide
    have e2 : ("/episodes" : String) ++ "" = "/episodes" := by decide
    simp only [e1, e2, renderBlog_eq, renderShow_eq, if_true]
    refine ⟨hb.1, he.1, hb.2.1, he.2.1, trivial, trivial, ?_, ?_⟩
    · intro hm
      rw [hb.2.2, he.2.2]
      simp only [hm, if_false]
    · intro hm
      rw [hb.2.2, he.2.2]
      simp only [hm, if_true]
      exact ⟨by decide, by decide⟩
  · intro hne
    have hp : strings.HasPrefix s "/" = true := hs.resolve_left hne
    obtain ⟨N, rfl⟩ := eq_slash_append_of_HasPrefix s hp
    have e1 : ("/blog" : String) ++ ("/" ++ N) = "/blog/" ++ N := by
      rw [← String.append_assoc]; rfl
    have e2 : ("/episodes" : String) ++ ("/" ++ N) = "/episodes/" ++ N := by
      rw [← String.append_assoc]; rfl
    refine ⟨relativeFile env N, ?_, ?_, ?_⟩
    · simp only [e1, renderBlog_eq, blog_named_ne, if_false, filesRead_loadAndRender,
        blogFile_relative]
    · simp only [e2, renderShow_eq, show_named_ne, if_false, filesRead_loadAndRender,
        showFile_relative]
    · intro hfile
      have hc := response_loadAndRender_congr env ⟨m, ⟨"/blog/" ++ N⟩⟩
        ⟨m, ⟨"/episodes/" ++ N⟩⟩ _ _ rfl hfile
      simp only [e1, e2, renderBlog_eq, renderShow_eq, blog_named_ne, show_named_ne,
        if_false, blogFile_relative, showFile_relative]
      exact hc

/-- Witness of C10 as amended: `s` is `/hello` on the sample host, where
`blog/hello.md` and `episodes/hello.md` hold the same text, and `s` is empty
for `HEAD`, where both redirects have the same, empty, body. -/
theorem blog_show_same_handler_witness :
    strings.HasPrefix "/hello" "/" = true ∧
    (∃ f : String,
      filesRead (renderBlog siteEnv (.fresh ⟨"GET", ⟨"/blog" ++ "/hello"⟩⟩)
        ⟨"GET", ⟨"/blog" ++ "/hello"⟩⟩).2 = ["blog/" ++ f] ∧
      filesRead (renderShow siteEnv (.fresh ⟨"GET", ⟨"/episodes" ++ "/hello"⟩⟩)
        ⟨"GET", ⟨"/episodes" ++ "/hello"⟩⟩).2 = ["episodes/" ++ f] ∧
      (siteEnv.ReadFile ("blog/" ++ f) = siteEnv.ReadFile ("episodes/" ++ f) →
        (renderBlog siteEnv (.fresh ⟨"GET", ⟨"/blog" ++ "/hello"⟩⟩)
          ⟨"GET", ⟨"/blog" ++ "/hello"⟩⟩).1.response =
          (renderShow siteEnv (.fresh ⟨"GET", ⟨"/episodes" ++ "/hello"⟩⟩)
            ⟨"GET", ⟨"/episodes" ++ "/hello"⟩⟩).1.response ∧
        (renderBlog siteEnv (.fresh ⟨"GET", ⟨"/blog" ++ "/hello"⟩⟩)
          ⟨"GET", ⟨"/blog" ++ "/hello"⟩⟩).2.drop 2 =
          (renderShow siteEnv (.fresh ⟨"GET", ⟨"/episodes" ++ "/hello"⟩⟩)
            ⟨"GET", ⟨"/episodes" ++ "/hello"⟩⟩).2.drop 2)) ∧
    (renderBlog siteEnv (.fresh ⟨"HEAD", ⟨"/blog" ++ ""⟩⟩)
      ⟨"HEAD", ⟨"/blog" ++ ""⟩⟩).1.response.body =
      (renderShow siteEnv (.fresh ⟨"HEAD", ⟨"/episodes" ++ ""⟩⟩)
        ⟨"HEAD", ⟨"/episodes" ++ ""⟩⟩).1.response.body :=
  ⟨by decide,
    (blog_show_same_handler siteEnv "GET" "/hello" (Or.inr (by decide))).2 (by decide),
    ((blog_show_same_handler siteEnv "HEAD" "" (Or.inl rfl)).1 rfl).2.2.2.2.2.2.1
      (by decide)⟩

end Halfstack
